import Mathlib

/-!
Shallow embedding of the simplelog.rs emitters (src/loggers/simplelog.rs and
src/loggers/termlog.rs) together with the parts of the log crate interface
(Level, LevelFilter) that the two files use.  Writes performed by the field
helpers (write_time, write_level, write_target, write_location, write_args)
are modelled as abstract write events; which events are attempted, in which
order, on which stream, and what happens on failure is translated directly
from the source.
-/

/-- Log severities of the log crate, ordered Error = 1 (most severe) through
Trace = 5 (least severe); comparison is by that ordinal. -/
inductive Level
| error
| warn
| info
| debug
| trace
deriving DecidableEq, Repr, Fintype

/-- The numeric value the log crate compares severities by. -/
def Level.toNat : Level → Nat
| Level.error => 1
| Level.warn => 2
| Level.info => 3
| Level.debug => 4
| Level.trace => 5

/-- Filter levels of the log crate: Off = 0, then the five severities. -/
inductive LevelFilter
| off
| error
| warn
| info
| debug
| trace
deriving DecidableEq, Repr, Fintype

/-- The numeric value the log crate compares filter levels by; a Level and a
LevelFilter are cross-compared through these values. -/
def LevelFilter.toNat : LevelFilter → Nat
| LevelFilter.off => 0
| LevelFilter.error => 1
| LevelFilter.warn => 2
| LevelFilter.info => 3
| LevelFilter.debug => 4
| LevelFilter.trace => 5

/-- The severity order as the spec states it: Error most severe, Trace least
severe.  Used only on the specification side of refinement statements. -/
def severityOrder : List Level :=
[Level.error, Level.warn, Level.info, Level.debug, Level.trace]

/-- Specification-side ordering: a is at least as severe as b when a comes no
later than b in the most-to-least-severe enumeration. -/
def Level.atLeastAsSevere (a b : Level) : Prop :=
severityOrder.indexOf a ≤ severityOrder.indexOf b

/-- The severity a LevelFilter admits at most verbosity, if any: Off admits
none, every other filter value corresponds to the severity of that name. -/
def LevelFilter.toLevel : LevelFilter → Option Level
| LevelFilter.off => none
| LevelFilter.error => some Level.error
| LevelFilter.warn => some Level.warn
| LevelFilter.info => some Level.info
| LevelFilter.debug => some Level.debug
| LevelFilter.trace => some Level.trace

/-- Specification-side statement of the overall filter: the record severity is
at least as severe as the filter level (an Off filter admits nothing). -/
def filterPassSpec (s : Level) (f : LevelFilter) : Prop :=
∃ t, f.toLevel = some t ∧ s.atLeastAsSevere t

/-- The Config struct as used by the emitters: per-field threshold, either
disabled (none) or enabled at a severity threshold. -/
structure Config where
  time : Option Level
  level : Option Level
  target : Option Level
  location : Option Level
deriving DecidableEq, Repr

/-- A log record as consumed by the emitters. -/
structure Record where
  level : Level
  target : String
  args : String
deriving DecidableEq, Repr

/-- Terminal foreground colors used by try_log_term. -/
inductive Color
| red
| yellow
| blue
| cyan
| white
deriving DecidableEq, Repr, Fintype

/-- The color match at the top of TermLogger::try_log_term. -/
def levelColor : Level → Color
| Level.error => Color.red
| Level.warn => Color.yellow
| Level.info => Color.blue
| Level.debug => Color.cyan
| Level.trace => Color.white

/-- One attempted write step of a rendering call: the field helpers, the
color set/reset around the severity label, and the final flush. -/
inductive WriteEvent
| writeTime
| fg (c : Color)
| writeLevel
| reset
| writeTarget
| writeLocation
| writeArgs
| flush
deriving DecidableEq, Repr

/-- The per-field gate of try_log_term and the shared formatter: the pattern
if let Some(t) = threshold followed by if t <= record.level(). -/
def fieldGate : Option Level → Level → Bool
| none, _ => false
| some t, l => decide (t.toNat ≤ l.toNat)

/-- The write sequence of TermLogger::try_log_term as a function of the four
gate outcomes and the chosen color: gated time, gated colorized level
(fg, label, reset), gated target, gated location, then always the message
and an explicit flush. -/
def buildTermSteps (btime blevel btarget blocation : Bool) (c : Color) : List WriteEvent :=
(if btime then [WriteEvent.writeTime] else [])
  ++ (if blevel then [WriteEvent.fg c, WriteEvent.writeLevel, WriteEvent.reset] else [])
  ++ (if btarget then [WriteEvent.writeTarget] else [])
  ++ (if blocation then [WriteEvent.writeLocation] else [])
  ++ [WriteEvent.writeArgs, WriteEvent.flush]

/-- The write sequence TermLogger::try_log_term attempts for a record under a
configuration, in source order. -/
def tryLogTermSteps (config : Config) (r : Record) : List WriteEvent :=
buildTermSteps (fieldGate config.time r.level) (fieldGate config.level r.level)
  (fieldGate config.target r.level) (fieldGate config.location r.level)
  (levelColor r.level)

/-- Modelled from the spec: the shared record formatter try_log of module
loggers/logging.rs, which is not under src/.  Per section 4.3 it renders the
gated fields in the same fixed order as the terminal emitter (without color
control), then always writes the message and flushes. -/
def tryLogSteps (config : Config) (r : Record) : List WriteEvent :=
(if fieldGate config.time r.level then [WriteEvent.writeTime] else [])
  ++ (if fieldGate config.level r.level then [WriteEvent.writeLevel] else [])
  ++ (if fieldGate config.target r.level then [WriteEvent.writeTarget] else [])
  ++ (if fieldGate config.location r.level then [WriteEvent.writeLocation] else [])
  ++ [WriteEvent.writeArgs, WriteEvent.flush]

/-- What one emit call wrote to each of the two destination streams. -/
structure Output where
  stderr : List WriteEvent
  stdout : List WriteEvent
deriving DecidableEq, Repr

/-- An abstract color-capable terminal handle as returned by term::stderr and
term::stdout. -/
structure TermHandle where
  id : Nat
deriving DecidableEq, Repr

/-- The SimpleLogger struct. -/
structure SimpleLogger where
  level : LevelFilter
  config : Config
deriving DecidableEq, Repr

/-- SimpleLogger::new. -/
def SimpleLogger.new (logLevel : LevelFilter) (config : Config) : SimpleLogger :=
SimpleLogger.mk logLevel config

/-- SimpleLogger::enabled: metadata.level() <= self.level in the log crate
cross-comparison. -/
def SimpleLogger.enabled (l : SimpleLogger) (lv : Level) : Bool :=
decide (lv.toNat ≤ l.level.toNat)

/-- SimpleLogger::log on the success path: when enabled, an Error record is
rendered via try_log to the locked stderr stream, every other severity to the
locked stdout stream; when not enabled, nothing happens. -/
def SimpleLogger.log (l : SimpleLogger) (r : Record) : Output :=
if l.enabled r.level then
  if r.level = Level.error then Output.mk (tryLogSteps l.config r) []
  else Output.mk [] (tryLogSteps l.config r)
else Output.mk [] []

/-- SimpleLogger::config of the SharedLogger impl: Some(&self.config). -/
def SimpleLogger.configOpt (l : SimpleLogger) : Option Config :=
some l.config

/-- The TermLogger struct: filter level, configuration, and one mutex-guarded
terminal handle per stream. -/
structure TermLogger where
  level : LevelFilter
  config : Config
  stderr : TermHandle
  stdout : TermHandle
deriving DecidableEq, Repr

/-- TermLogger::new: term::stderr().and_then over term::stdout().map; the
instance exists exactly when both handle acquisitions succeed. -/
def TermLogger.new (stderrH stdoutH : Option TermHandle) (logLevel : LevelFilter)
    (config : Config) : Option TermLogger :=
stderrH.bind (fun e => stdoutH.map (fun o => TermLogger.mk logLevel config e o))

/-- TermLogger::config of the SharedLogger impl: Some(&self.config). -/
def TermLogger.configOpt (l : TermLogger) : Option Config :=
some l.config

/-- The TermLogger error type: SetLogger wraps a facade registration failure,
Term reports that no suitable terminal device could be opened. -/
inductive TermLogError
| setLogger
| term
deriving DecidableEq, Repr

/-- TermLogger::init: first new(..).ok_or(Term) via try!, then set_max_level,
then try!(set_boxed_logger(..)) whose failure becomes SetLogger. -/
def TermLogger.init (stderrH stdoutH : Option TermHandle) (setLoggerFails : Bool)
    (logLevel : LevelFilter) (config : Config) : Except TermLogError Unit :=
match TermLogger.new stderrH stdoutH logLevel config with
| none => Except.error TermLogError.term
| some _ => if setLoggerFails then Except.error TermLogError.setLogger else Except.ok ()

/-- TermLogger::enabled: metadata.level() <= self.level. -/
def TermLogger.enabled (l : TermLogger) (lv : Level) : Bool :=
decide (lv.toNat ≤ l.level.toNat)

/-- Poison state of the two mutexes guarding the terminal handles. -/
structure TermState where
  stderrPoisoned : Bool
  stdoutPoisoned : Bool
deriving DecidableEq, Repr

/-- Both mutexes healthy. -/
def cleanState : TermState :=
TermState.mk false false

/-- An environment in which every write step succeeds. -/
def allOk : Nat → Bool :=
fun _ => true

/-- Run a sequence of write steps from step index i under a success oracle:
each step is attempted in order via try!, so the first failing step stops the
run, the steps before it having been performed. -/
def runSteps (ok : Nat → Bool) (i : Nat) : List WriteEvent → List WriteEvent × Bool
| [] => ([], true)
| e :: rest =>
  if ok i then
    let p := runSteps ok (i + 1) rest
    (e :: p.1, p.2)
  else ([], false)

/-- Result of TermLogger::try_log: either the call panicked (lock().unwrap()
on a poisoned mutex), or it returned a Result together with the writes it
performed on each stream. -/
inductive TryLogResult
| panicked
| done (res : Except Unit Unit) (out : Output)
deriving Repr

/-- TermLogger::try_log: nothing at all when not enabled; otherwise lock the
stream selected by severity (Error to stderr, everything else to stdout) —
panicking if that mutex is poisoned — and run try_log_term there. -/
def TermLogger.tryLog (l : TermLogger) (st : TermState) (ok : Nat → Bool)
    (r : Record) : TryLogResult :=
if l.enabled r.level then
  if r.level = Level.error then
    if st.stderrPoisoned then TryLogResult.panicked
    else
      let p := runSteps ok 0 (tryLogTermSteps l.config r)
      TryLogResult.done (if p.2 then Except.ok () else Except.error ()) (Output.mk p.1 [])
  else
    if st.stdoutPoisoned then TryLogResult.panicked
    else
      let p := runSteps ok 0 (tryLogTermSteps l.config r)
      TryLogResult.done (if p.2 then Except.ok () else Except.error ()) (Output.mk [] p.1)
else TryLogResult.done (Except.ok ()) (Output.mk [] [])

/-- Outcome of the public TermLogger::log: the call either panicked, or
returned normally having performed some writes. -/
inductive LogOutcome
| panicked
| returned (out : Output)
deriving DecidableEq, Repr

/-- TermLogger::log: let _ = self.try_log(record) — the Result is discarded,
a panic propagates. -/
def TermLogger.log (l : TermLogger) (st : TermState) (ok : Nat → Bool)
    (r : Record) : LogOutcome :=
match l.tryLog st ok r with
| TryLogResult.panicked => LogOutcome.panicked
| TryLogResult.done _ out => LogOutcome.returned out

/-- The writes TermLogger::log performs on the fully successful path: healthy
mutexes, every write step succeeding. -/
def TermLogger.logWrites (l : TermLogger) (r : Record) : Output :=
match l.log cleanState allOk r with
| LogOutcome.panicked => Output.mk [] []
| LogOutcome.returned out => out

/-- The full write sequence of one terminal emit call, both streams
concatenated (at most one is ever nonempty). -/
def writtenSeq (l : TermLogger) (r : Record) : List WriteEvent :=
(l.logWrites r).stderr ++ (l.logWrites r).stdout

/-- Routing helper naming the destination selection both emitters use:
Error to the error stream, everything else to the standard stream. -/
def routeWrites (r : Record) (ws : List WriteEvent) : Output :=
if r.level = Level.error then Output.mk ws [] else Output.mk [] ws

/-! Helper lemmas shared by the claim theorems. -/

theorem runSteps_allOk (i : Nat) (l : List WriteEvent) :
    runSteps allOk i l = (l, true) := by
  induction l generalizing i with
  | nil => rfl
  | cons e rest ih => simp [runSteps, allOk, ih]

theorem tryLogTermSteps_ne_nil (config : Config) (r : Record) :
    tryLogTermSteps config r ≠ [] := by
  unfold tryLogTermSteps buildTermSteps
  intro h
  rcases List.append_eq_nil.mp h with ⟨-, h2⟩
  exact List.cons_ne_nil _ _ h2

theorem tryLogSteps_ne_nil (config : Config) (r : Record) :
    tryLogSteps config r ≠ [] := by
  unfold tryLogSteps
  intro h
  rcases List.append_eq_nil.mp h with ⟨-, h2⟩
  exact List.cons_ne_nil _ _ h2

theorem logWrites_eq (l : TermLogger) (r : Record)
    (hen : l.enabled r.level = true) :
    l.logWrites r = routeWrites r (tryLogTermSteps l.config r) := by
  unfold TermLogger.logWrites TermLogger.log TermLogger.tryLog routeWrites
  by_cases hl : r.level = Level.error
  · rw [hl] at hen
    simp [hl, hen, cleanState, runSteps_allOk]
  · simp [hl, hen, cleanState, runSteps_allOk]

theorem writtenSeq_eq (l : TermLogger) (r : Record)
    (hen : l.enabled r.level = true) :
    writtenSeq l r = tryLogTermSteps l.config r := by
  unfold writtenSeq
  rw [logWrites_eq l r hen]
  unfold routeWrites
  by_cases hl : r.level = Level.error <;> simp [hl]

theorem fieldGate_iff (o : Option Level) (lv : Level) :
    fieldGate o lv = true ↔ ∃ t, o = some t ∧ t.toNat ≤ lv.toNat := by
  cases o with
  | none => simp [fieldGate]
  | some t => simp [fieldGate]

instance instDecAtLeastAsSevere (a b : Level) : Decidable (a.atLeastAsSevere b) :=
Nat.decLe _ _

instance instDecFilterPassSpec (s : Level) (f : LevelFilter) : Decidable (filterPassSpec s f) :=
Fintype.decidableExistsFintype

theorem enabled_iff_spec (f : LevelFilter) (s : Level) :
    decide (s.toNat ≤ f.toNat) = true ↔ filterPassSpec s f := by
  cases f <;> cases s <;> decide

theorem runSteps_first_fail (ok : Nat → Bool) :
    ∀ (l : List WriteEvent) (i j : Nat), j < l.length → ok (i + j) = false →
      (∀ k, k < j → ok (i + k) = true) →
      runSteps ok i l = (l.take j, false) := by
  intro l
  induction l with
  | nil =>
    intro i j hj _ _
    exact absurd hj (by simp)
  | cons e rest ih =>
    intro i j hj hfail hbefore
    cases j with
    | zero =>
      have h0 : ok i = false := by simpa using hfail
      simp [runSteps, h0]
    | succ m =>
      have h0 : ok i = true := by
        have := hbefore 0 (Nat.succ_pos m)
        simpa using this
      have hrest : runSteps ok (i + 1) rest = (rest.take m, false) := by
        apply ih (i + 1) m
        · exact Nat.lt_of_succ_lt_succ (by simpa using hj)
        · have : i + 1 + m = i + (m + 1) := by omega
          rw [this]
          exact hfail
        · intro k hk
          have : i + 1 + k = i + (k + 1) := by omega
          rw [this]
          exact hbefore (k + 1) (Nat.succ_lt_succ hk)
      simp [runSteps, h0, hrest]

theorem buildTermSteps_mem (b1 b2 b3 b4 : Bool) (c : Color) :
    (WriteEvent.writeTime ∈ buildTermSteps b1 b2 b3 b4 c ↔ b1 = true)
    ∧ (WriteEvent.writeLevel ∈ buildTermSteps b1 b2 b3 b4 c ↔ b2 = true)
    ∧ (WriteEvent.writeTarget ∈ buildTermSteps b1 b2 b3 b4 c ↔ b3 = true)
    ∧ (WriteEvent.writeLocation ∈ buildTermSteps b1 b2 b3 b4 c ↔ b4 = true) := by
  revert b1 b2 b3 b4 c
  decide

theorem buildTermSteps_shape (b1 b2 b3 b4 : Bool) (c : Color) :
    (buildTermSteps b1 b2 b3 b4 c).getLast? = some WriteEvent.flush
    ∧ WriteEvent.writeArgs ∈ buildTermSteps b1 b2 b3 b4 c
    ∧ List.Sublist (buildTermSteps b1 b2 b3 b4 c)
        [WriteEvent.writeTime, WriteEvent.fg c, WriteEvent.writeLevel, WriteEvent.reset,
         WriteEvent.writeTarget, WriteEvent.writeLocation, WriteEvent.writeArgs,
         WriteEvent.flush] := by
  revert b1 b2 b3 b4 c
  decide

/-- True exactly on color-set events. -/
def isFg : WriteEvent → Bool
| WriteEvent.fg _ => true
| _ => false

theorem buildTermSteps_color (b1 b2 b3 b4 : Bool) (c : Color) :
    (∀ i, i < (buildTermSteps b1 b2 b3 b4 c).length →
      ∀ d, (buildTermSteps b1 b2 b3 b4 c)[i]? = some (WriteEvent.fg d) →
        d = c ∧ (buildTermSteps b1 b2 b3 b4 c)[i + 1]? = some WriteEvent.writeLevel
          ∧ (buildTermSteps b1 b2 b3 b4 c)[i + 2]? = some WriteEvent.reset)
    ∧ (∀ i, i < (buildTermSteps b1 b2 b3 b4 c).length →
      (buildTermSteps b1 b2 b3 b4 c)[i]? = some WriteEvent.reset →
        2 ≤ i ∧ (buildTermSteps b1 b2 b3 b4 c)[i - 1]? = some WriteEvent.writeLevel
          ∧ (buildTermSteps b1 b2 b3 b4 c)[i - 2]? = some (WriteEvent.fg c))
    ∧ (buildTermSteps b1 b2 b3 b4 c).count WriteEvent.reset
        = ((buildTermSteps b1 b2 b3 b4 c).filter isFg).length := by
  revert b1 b2 b3 b4 c
  decide

/-! Claim theorems. -/

/-- C9: for every severity S and every emitter (SimpleLogger or TermLogger),
enabled(S) returns true if and only if S is at least as severe as the filter
level the emitter was constructed with. -/
theorem enabled_iff_at_least_as_severe :
    ∀ (f : LevelFilter) (cfg : Config) (se so : TermHandle) (s : Level),
      ((SimpleLogger.new f cfg).enabled s = true ↔ filterPassSpec s f)
      ∧ ((TermLogger.mk f cfg se so).enabled s = true ↔ filterPassSpec s f) := by
  intro f cfg se so s
  exact ⟨enabled_iff_spec f s, enabled_iff_spec f s⟩

/-- C10: the config() accessor of both emitters always returns Some of the
Display Configuration the instance was constructed with; despite the Option
return type it is never None. -/
theorem config_accessor_always_some (f : LevelFilter) (cfg : Config)
    (se so : TermHandle) (sl : SimpleLogger) (tl : TermLogger) :
    (SimpleLogger.new f cfg).configOpt = some cfg
    ∧ (TermLogger.new (some se) (some so) f cfg).map TermLogger.configOpt
        = some (some cfg)
    ∧ sl.configOpt = some sl.config ∧ tl.configOpt = some tl.config :=
⟨rfl, rfl, rfl, rfl⟩

/-- C4: when either terminal handle cannot be acquired, TermLogger::new yields
no instance at all and TermLogger::init fails with the distinguished Term
error; no partially-capable instance is ever produced. -/
theorem construction_fails_whole (se so : Option TermHandle) (setLoggerFails : Bool)
    (f : LevelFilter) (cfg : Config) (h : se = none ∨ so = none) :
    TermLogger.new se so f cfg = none
    ∧ TermLogger.init se so setLoggerFails f cfg = Except.error TermLogError.term := by
  have hnew : TermLogger.new se so f cfg = none := by
    rcases h with h | h
    · rw [h]
      rfl
    · rw [h]
      cases se <;> rfl
  refine ⟨hnew, ?_⟩
  unfold TermLogger.init
  rw [hnew]

/-- Witness for C4 at a concrete input: stdout handle missing. -/
theorem construction_fails_whole_witness :
    ((some (TermHandle.mk 0) : Option TermHandle) = none ∨ (none : Option TermHandle) = none)
    ∧ TermLogger.new (some (TermHandle.mk 0)) none LevelFilter.info
        (Config.mk none none none none) = none
    ∧ TermLogger.init (some (TermHandle.mk 0)) none false LevelFilter.info
        (Config.mk none none none none) = Except.error TermLogError.term :=
⟨Or.inr rfl,
  construction_fails_whole (some (TermHandle.mk 0)) none false LevelFilter.info
    (Config.mk none none none none) (Or.inr rfl)⟩

/-- C3: a record below the configured filter level makes log a no-op for both
emitters, whatever the mutex state and write environment: no bytes reach
either stream and the terminal try_log returns Ok without locking. -/
theorem disabled_log_is_noop (sl : SimpleLogger) (tl : TermLogger) (st : TermState)
    (ok : Nat → Bool) (r : Record)
    (hs : sl.enabled r.level = false) (ht : tl.enabled r.level = false) :
    sl.log r = Output.mk [] []
    ∧ tl.tryLog st ok r = TryLogResult.done (Except.ok ()) (Output.mk [] [])
    ∧ tl.log st ok r = LogOutcome.returned (Output.mk [] []) := by
  refine ⟨?_, ?_, ?_⟩
  · unfold SimpleLogger.log
    simp [hs]
  · unfold TermLogger.tryLog
    simp [ht]
  · unfold TermLogger.log TermLogger.tryLog
    simp [ht]

/-- A configuration with the default thresholds of the crate, used by concrete
witness instantiations. -/
def cfgW : Config :=
Config.mk (some Level.error) (some Level.error) (some Level.debug) (some Level.trace)

/-- Witness for C3 at a concrete input: Trace record against an Error filter,
with both mutexes poisoned. -/
theorem disabled_log_is_noop_witness :
    (SimpleLogger.new LevelFilter.error cfgW).enabled Level.trace = false
    ∧ (TermLogger.mk LevelFilter.error cfgW (TermHandle.mk 0) (TermHandle.mk 1)).enabled
        Level.trace = false
    ∧ ((SimpleLogger.new LevelFilter.error cfgW).log (Record.mk Level.trace "net" "listening")
        = Output.mk [] []
      ∧ (TermLogger.mk LevelFilter.error cfgW (TermHandle.mk 0) (TermHandle.mk 1)).tryLog
          (TermState.mk true true) allOk (Record.mk Level.trace "net" "listening")
        = TryLogResult.done (Except.ok ()) (Output.mk [] [])
      ∧ (TermLogger.mk LevelFilter.error cfgW (TermHandle.mk 0) (TermHandle.mk 1)).log
          (TermState.mk true true) allOk (Record.mk Level.trace "net" "listening")
        = LogOutcome.returned (Output.mk [] [])) :=
⟨by decide, by decide,
  disabled_log_is_noop (SimpleLogger.new LevelFilter.error cfgW)
    (TermLogger.mk LevelFilter.error cfgW (TermHandle.mk 0) (TermHandle.mk 1))
    (TermState.mk true true) allOk (Record.mk Level.trace "net" "listening")
    (by decide) (by decide)⟩

/-- Shared concrete witness logger: Trace filter, default-like thresholds. -/
def tlW : TermLogger :=
TermLogger.mk LevelFilter.trace cfgW (TermHandle.mk 0) (TermHandle.mk 1)

/-- Shared concrete witness logger for the plain emitter. -/
def slW : SimpleLogger :=
SimpleLogger.new LevelFilter.trace cfgW

/-- Shared concrete Error record. -/
def recErr : Record :=
Record.mk Level.error "net" "boom"

/-- C2: every enabled record is written to exactly one destination by both
emitters: the error stream exactly when its severity is Error, the standard
stream otherwise, the other stream receiving nothing. -/
theorem routing_by_severity (sl : SimpleLogger) (tl : TermLogger) (r : Record)
    (hs : sl.enabled r.level = true) (ht : tl.enabled r.level = true) :
    ((sl.log r).stderr = [] ↔ r.level ≠ Level.error)
    ∧ ((sl.log r).stdout = [] ↔ r.level = Level.error)
    ∧ ((tl.logWrites r).stderr = [] ↔ r.level ≠ Level.error)
    ∧ ((tl.logWrites r).stdout = [] ↔ r.level = Level.error) := by
  rw [logWrites_eq tl r ht]
  unfold SimpleLogger.log routeWrites
  by_cases hl : r.level = Level.error
  · rw [hl] at hs
    simp [hs, hl, tryLogSteps_ne_nil, tryLogTermSteps_ne_nil]
  · simp [hs, hl, tryLogSteps_ne_nil, tryLogTermSteps_ne_nil]

/-- Witness for C2 at a concrete input: an enabled Error record lands on
stderr only, for both emitters. -/
theorem routing_by_severity_witness :
    slW.enabled recErr.level = true
    ∧ tlW.enabled recErr.level = true
    ∧ (((slW.log recErr).stderr = [] ↔ recErr.level ≠ Level.error)
      ∧ ((slW.log recErr).stdout = [] ↔ recErr.level = Level.error)
      ∧ ((tlW.logWrites recErr).stderr = [] ↔ recErr.level ≠ Level.error)
      ∧ ((tlW.logWrites recErr).stdout = [] ↔ recErr.level = Level.error)) :=
⟨by decide, by decide, routing_by_severity slW tlW recErr (by decide) (by decide)⟩

/-- C7: for every enabled record the terminal emitter writes the fields in
the fixed order time, severity label, target, location, message: the whole
call is a subsequence of the canonical full sequence, the message is always
written, and the explicit flush is the final step. -/
theorem render_order_message_flush (tl : TermLogger) (r : Record)
    (hen : tl.enabled r.level = true) :
    (writtenSeq tl r).getLast? = some WriteEvent.flush
    ∧ WriteEvent.writeArgs ∈ writtenSeq tl r
    ∧ List.Sublist (writtenSeq tl r)
        [WriteEvent.writeTime, WriteEvent.fg (levelColor r.level), WriteEvent.writeLevel,
         WriteEvent.reset, WriteEvent.writeTarget, WriteEvent.writeLocation,
         WriteEvent.writeArgs, WriteEvent.flush] := by
  rw [writtenSeq_eq tl r hen]
  unfold tryLogTermSteps
  exact buildTermSteps_shape _ _ _ _ _

/-- Witness for C7 at a concrete input. -/
theorem render_order_message_flush_witness :
    tlW.enabled recErr.level = true
    ∧ ((writtenSeq tlW recErr).getLast? = some WriteEvent.flush
      ∧ WriteEvent.writeArgs ∈ writtenSeq tlW recErr
      ∧ List.Sublist (writtenSeq tlW recErr)
          [WriteEvent.writeTime, WriteEvent.fg (levelColor recErr.level),
           WriteEvent.writeLevel, WriteEvent.reset, WriteEvent.writeTarget,
           WriteEvent.writeLocation, WriteEvent.writeArgs, WriteEvent.flush]) :=
⟨by decide, render_order_message_flush tlW recErr (by decide)⟩

/-- C8: in try_log_term the foreground color — red for Error, yellow for
Warn, blue for Info, cyan for Debug, white for Trace — is set only
immediately before the severity label and reset immediately after it, and
every color set is matched by a reset, so no color surrounds another field or
outlives the call. -/
theorem color_only_around_level (cfg : Config) (r : Record) :
    (levelColor Level.error = Color.red ∧ levelColor Level.warn = Color.yellow
      ∧ levelColor Level.info = Color.blue ∧ levelColor Level.debug = Color.cyan
      ∧ levelColor Level.trace = Color.white)
    ∧ (∀ i, i < (tryLogTermSteps cfg r).length →
        ∀ d, (tryLogTermSteps cfg r)[i]? = some (WriteEvent.fg d) →
          d = levelColor r.level
            ∧ (tryLogTermSteps cfg r)[i + 1]? = some WriteEvent.writeLevel
            ∧ (tryLogTermSteps cfg r)[i + 2]? = some WriteEvent.reset)
    ∧ (∀ i, i < (tryLogTermSteps cfg r).length →
        (tryLogTermSteps cfg r)[i]? = some WriteEvent.reset →
          2 ≤ i ∧ (tryLogTermSteps cfg r)[i - 1]? = some WriteEvent.writeLevel
            ∧ (tryLogTermSteps cfg r)[i - 2]? = some (WriteEvent.fg (levelColor r.level)))
    ∧ (tryLogTermSteps cfg r).count WriteEvent.reset
        = ((tryLogTermSteps cfg r).filter isFg).length := by
  refine ⟨by decide, ?_⟩
  unfold tryLogTermSteps
  exact buildTermSteps_color _ _ _ _ _

/-- The logger of the C1 spec example: filter Info, timestamp threshold Warn. -/
def tlC1 : TermLogger :=
TermLogger.mk LevelFilter.info
  (Config.mk (some Level.warn) (some Level.error) (some Level.error) (some Level.error))
  (TermHandle.mk 0) (TermHandle.mk 1)

/-- Counterexample to C1 as stated, at the claim's own example: with
timestamp-threshold Warn the Info record does get a timestamp although Info
is not at least as severe as Warn, and the Error record gets none although
Error is at least as severe as Warn. -/
theorem timestamp_gate_counterexample :
    WriteEvent.writeTime ∈ writtenSeq tlC1 (Record.mk Level.info "net" "listening")
    ∧ ¬ Level.info.atLeastAsSevere Level.warn
    ∧ WriteEvent.writeTime ∉ writtenSeq tlC1 (Record.mk Level.error "net" "boom")
    ∧ Level.error.atLeastAsSevere Level.warn := by
  decide

/-- C1 amended: the terminal emitter renders a gated field exactly when its
threshold T satisfies T <= record severity in the log crate order, i.e. when
the record is at least as verbose as (at most as severe as) T. -/
theorem field_gating_amended (tl : TermLogger) (r : Record)
    (hen : tl.enabled r.level = true) :
    (WriteEvent.writeTime ∈ writtenSeq tl r
      ↔ ∃ t, tl.config.time = some t ∧ t.toNat ≤ r.level.toNat)
    ∧ (WriteEvent.writeLevel ∈ writtenSeq tl r
      ↔ ∃ t, tl.config.level = some t ∧ t.toNat ≤ r.level.toNat)
    ∧ (WriteEvent.writeTarget ∈ writtenSeq tl r
      ↔ ∃ t, tl.config.target = some t ∧ t.toNat ≤ r.level.toNat)
    ∧ (WriteEvent.writeLocation ∈ writtenSeq tl r
      ↔ ∃ t, tl.config.location = some t ∧ t.toNat ≤ r.level.toNat) := by
  rw [writtenSeq_eq tl r hen]
  unfold tryLogTermSteps
  have hmem := buildTermSteps_mem (fieldGate tl.config.time r.level)
    (fieldGate tl.config.level r.level) (fieldGate tl.config.target r.level)
    (fieldGate tl.config.location r.level) (levelColor r.level)
  refine ⟨?_, ?_, ?_, ?_⟩
  · rw [hmem.1]
    exact fieldGate_iff _ _
  · rw [hmem.2.1]
    exact fieldGate_iff _ _
  · rw [hmem.2.2.1]
    exact fieldGate_iff _ _
  · rw [hmem.2.2.2]
    exact fieldGate_iff _ _

/-- Witness for the amended C1 at the spec example input. -/
theorem field_gating_amended_witness :
    tlC1.enabled Level.info = true
    ∧ ((WriteEvent.writeTime ∈ writtenSeq tlC1 (Record.mk Level.info "net" "listening")
        ↔ ∃ t, tlC1.config.time = some t
            ∧ t.toNat ≤ (Record.mk Level.info "net" "listening").level.toNat)
      ∧ (WriteEvent.writeLevel ∈ writtenSeq tlC1 (Record.mk Level.info "net" "listening")
        ↔ ∃ t, tlC1.config.level = some t
            ∧ t.toNat ≤ (Record.mk Level.info "net" "listening").level.toNat)
      ∧ (WriteEvent.writeTarget ∈ writtenSeq tlC1 (Record.mk Level.info "net" "listening")
        ↔ ∃ t, tlC1.config.target = some t
            ∧ t.toNat ≤ (Record.mk Level.info "net" "listening").level.toNat)
      ∧ (WriteEvent.writeLocation ∈ writtenSeq tlC1 (Record.mk Level.info "net" "listening")
        ↔ ∃ t, tlC1.config.location = some t
            ∧ t.toNat ≤ (Record.mk Level.info "net" "listening").level.toNat)) :=
⟨by decide, field_gating_amended tlC1 (Record.mk Level.info "net" "listening") (by decide)⟩

/-- Counterexample to C5 as stated: with a poisoned stderr mutex, logging an
enabled Error record panics in lock().unwrap() instead of returning. -/
theorem poisoned_mutex_panics :
    tlW.log (TermState.mk true false) allOk recErr = LogOutcome.panicked := by
  decide

/-- C5 amended: as long as the mutex of the destination the record routes to
is not poisoned, the public log never panics — every failure path returns
control to the caller (the plain emitter has no such mutex at all). -/
theorem log_no_panic_unpoisoned (tl : TermLogger) (st : TermState) (ok : Nat → Bool)
    (r : Record)
    (h : (r.level = Level.error → st.stderrPoisoned = false)
      ∧ (r.level ≠ Level.error → st.stdoutPoisoned = false)) :
    ∃ out, tl.log st ok r = LogOutcome.returned out := by
  unfold TermLogger.log TermLogger.tryLog
  by_cases hen : tl.enabled r.level = true
  · by_cases hl : r.level = Level.error
    · rw [hl] at hen
      simp [hl, hen, h.1 hl]
    · simp [hl, hen, h.2 hl]
  · simp [hen]

/-- Witness for the amended C5: clean mutexes, an enabled Error record. -/
theorem log_no_panic_unpoisoned_witness :
    ((recErr.level = Level.error → cleanState.stderrPoisoned = false)
      ∧ (recErr.level ≠ Level.error → cleanState.stdoutPoisoned = false))
    ∧ ∃ out, tlW.log cleanState allOk recErr = LogOutcome.returned out :=
⟨⟨fun _ => by decide, fun _ => by decide⟩,
  log_no_panic_unpoisoned tlW cleanState allOk recErr
    ⟨fun _ => by decide, fun _ => by decide⟩⟩

/-- C6: when the first failing write step of a rendering call is step j, the
steps after j are not performed (the record's writes are exactly the first j
attempted steps, on the severity-selected stream), try_log reports the I/O
failure, and the public log swallows it and returns normally. -/
theorem write_failure_aborts_and_swallowed (tl : TermLogger) (r : Record)
    (ok : Nat → Bool) (j : Nat)
    (hen : tl.enabled r.level = true)
    (hj : j < (tryLogTermSteps tl.config r).length)
    (hfail : ok j = false)
    (hbefore : ∀ k, k < j → ok k = true) :
    tl.tryLog cleanState ok r
      = TryLogResult.done (Except.error ())
          (routeWrites r ((tryLogTermSteps tl.config r).take j))
    ∧ tl.log cleanState ok r
      = LogOutcome.returned (routeWrites r ((tryLogTermSteps tl.config r).take j)) := by
  have hrun : runSteps ok 0 (tryLogTermSteps tl.config r)
      = ((tryLogTermSteps tl.config r).take j, false) := by
    apply runSteps_first_fail ok _ 0 j hj
    · simpa using hfail
    · intro k hk
      simpa using hbefore k hk
  unfold TermLogger.log TermLogger.tryLog routeWrites
  by_cases hl : r.level = Level.error
  · rw [hl] at hen
    simp [hl, hen, cleanState, hrun]
  · simp [hl, hen, cleanState, hrun]

/-- Configuration whose four thresholds are all Trace: every field gate is
open for a Trace record. -/
def cfgAll : Config :=
Config.mk (some Level.trace) (some Level.trace) (some Level.trace) (some Level.trace)

/-- Success oracle failing exactly at step index 3. -/
def okFail3 : Nat → Bool :=
fun i => decide (i ≠ 3)

/-- Witness for C6: all gates open, the fourth write step (the color reset)
fails; the first three steps are on stdout, the error is swallowed. -/
theorem write_failure_aborts_and_swallowed_witness :
    (TermLogger.mk LevelFilter.trace cfgAll (TermHandle.mk 0) (TermHandle.mk 1)).enabled
      Level.trace = true
    ∧ 3 < (tryLogTermSteps cfgAll (Record.mk Level.trace "net" "listening")).length
    ∧ okFail3 3 = false
    ∧ ((TermLogger.mk LevelFilter.trace cfgAll (TermHandle.mk 0) (TermHandle.mk 1)).tryLog
        cleanState okFail3 (Record.mk Level.trace "net" "listening")
      = TryLogResult.done (Except.error ())
          (routeWrites (Record.mk Level.trace "net" "listening")
            ((tryLogTermSteps cfgAll (Record.mk Level.trace "net" "listening")).take 3))
      ∧ (TermLogger.mk LevelFilter.trace cfgAll (TermHandle.mk 0) (TermHandle.mk 1)).log
          cleanState okFail3 (Record.mk Level.trace "net" "listening")
        = LogOutcome.returned
            (routeWrites (Record.mk Level.trace "net" "listening")
              ((tryLogTermSteps cfgAll (Record.mk Level.trace "net" "listening")).take 3))) :=
⟨by decide, by decide, by decide,
  write_failure_aborts_and_swallowed
    (TermLogger.mk LevelFilter.trace cfgAll (TermHandle.mk 0) (TermHandle.mk 1))
    (Record.mk Level.trace "net" "listening") okFail3 3
    (by decide) (by decide) (by decide) (by decide)⟩
